import Mathlib

/-!
# Verification of the revised cloud mask core (espa-snow-covered-area)

Shallow embedding of the classification-and-refinement pipeline of the
`revised_cloud_mask` program:

* `make_index` — spectral index engine (src/fSCA/src/revised_cm/make_index.c)
* `variance_out` — windowed variance estimator (src/unnamed/part_000, the
  revised_cm variance module)
* `rule_based_model_pix` — rule-based ensemble classifier
  (src/fSCA/src/revised_cm/rule_based_model.c)
* `refine_cloud_mask` — morphological opening step of main
  (src/fSCA/src/revised_cm/revised_cloud_mask.c lines 260-262)
* `composite_pix` — final mask compositing loops of main
  (src/fSCA/src/revised_cm/revised_cloud_mask.c lines 343-369)

C `float`/`double` values are modelled exactly over `ℚ`, extended with the
IEEE special values (`pinf`, `ninf`, `nan`) that the C expressions can
produce; comparisons against NaN are false, as in IEEE arithmetic.  The
properties proved here (fill propagation, clamping to [-1,1], branch
structure of the rule lists, sign of variances, mask precedence) are
insensitive to the sub-ulp rounding of finite IEEE results, which is the
only idealization made.
-/

/-! ## Constants (src/unnamed/part_002 = revised_cloud_mask.h, src/fSCA/src/output.h) -/

/-- `#define CFMASK_FILL 255` — fill value in the input cfmask. -/
def CFMASK_FILL : Nat := 255

/-- `#define CFMASK_CLOUD 4` — cloud value in the input cfmask. -/
def CFMASK_CLOUD : Nat := 4

/-- `#define OUT_NOCLOUD 0` — pixel is not cloud (clear). -/
def OUT_NOCLOUD : Nat := 0

/-- `#define OUT_POSS_CLOUD 1` — pixel was cloud in the input cfmask. -/
def OUT_POSS_CLOUD : Nat := 1

/-- `#define OUT_CLOUD 2` — pixel is cloud in the revised cfmask. -/
def OUT_CLOUD : Nat := 2

/-- `#define OUT_WATER 3` — pixel is water in DSWE. -/
def OUT_WATER : Nat := 3

/-- `#define FILL_VALUE -9999` (src/fSCA/src/output.h). -/
def FILL_VALUE : Int := -9999

/-- `#define CFMASK_FILL_VALUE 255` — declared fill value of the output
revised cloud-mask band (src/fSCA/src/output.h; set as the band metadata
fill in src/fSCA/src/revised_cm/output.c line 178). -/
def CFMASK_FILL_VALUE : Nat := 255

/-- `#define FLOAT_TO_INT 10000.0` (src/fSCA/src/output.h). -/
def FLOAT_TO_INT : ℚ := 10000

/-! ## An exact model of the C floating-point values used by the core

The C code stores `(A-B)/(A+B)` in a `float`/`double`.  Over the inputs of
this program the value is either a finite number, `±inf` (division of a
non-zero number by zero) or NaN (`0/0`).  `Cfloat` models these cases with
the finite case kept exact in `ℚ`. -/

inductive Cfloat where
  | fin : ℚ → Cfloat
  | pinf : Cfloat
  | ninf : Cfloat
  | nan : Cfloat
deriving DecidableEq

/-- C comparison `x > c` for a float `x` and finite constant `c`
(NaN compares false). -/
def cgt : Cfloat → ℚ → Bool
  | .fin q, c => decide (q > c)
  | .pinf, _ => true
  | .ninf, _ => false
  | .nan, _ => false

/-- C comparison `x < c` (NaN compares false). -/
def clt : Cfloat → ℚ → Bool
  | .fin q, c => decide (q < c)
  | .pinf, _ => false
  | .ninf, _ => true
  | .nan, _ => false

/-- C comparison `x <= c` (NaN compares false). -/
def cle : Cfloat → ℚ → Bool
  | .fin q, c => decide (q ≤ c)
  | .pinf, _ => false
  | .ninf, _ => true
  | .nan, _ => false

/-- IEEE division of two finite values: finite quotient when the divisor is
non-zero, `±inf` for `x/0` with `x ≠ 0`, NaN for `0/0`. -/
def cdiv (num den : ℚ) : Cfloat :=
  if den = 0 then
    if num > 0 then .pinf else if num < 0 then .ninf else .nan
  else .fin (num / den)

/-! ## Spectral index engine — src/fSCA/src/revised_cm/make_index.c -/

/-- `make_index` (src/fSCA/src/revised_cm/make_index.c lines 31-63):

```c
if (band1 == fill_value || band2 == fill_value)
    spec_indx = (float) FILL_VALUE;
else
{
    ratio = (float) (band1 - band2) / (float) (band1 + band2);
    if (ratio > 1.0) ratio = 1.0;
    else if (ratio < -1.0) ratio = -1.0;
    spec_indx = ratio;
}
```
The `satu_value` parameter is accepted and ignored, exactly as in the C
function (saturated values are used as-is since 6/17/2014). -/
def make_index (band1 band2 : Int) (fill_value satu_value : Int) : Cfloat :=
  if band1 = fill_value ∨ band2 = fill_value then .fin FILL_VALUE
  else
    let r := cdiv ((band1 : ℚ) - (band2 : ℚ)) ((band1 : ℚ) + (band2 : ℚ))
    if cgt r 1 then .fin 1
    else if clt r (-1) then .fin (-1)
    else r

/-! ## Mask compositor — src/fSCA/src/revised_cm/revised_cloud_mask.c
lines 343-369

The two marking loops of `main` are element-wise over `pix`, so they are
embedded as a per-pixel function.  `dswe` is `none` when no DSWE file is
available (`refl_input->dswe_file_name` null), in which case the water loop
does not run at all. -/

/-- Per-pixel composition of the refined verdict `rev_cm` (after
erosion/dilation) with the coarse cfmask and the optional DSWE water layer:

```c
if (refl_input->cfmask_buf[pix] == CFMASK_FILL)
    rev_cm[pix] = 0;
if (rev_cm[pix] == OUT_NOCLOUD &&
    refl_input->cfmask_buf[pix] == CFMASK_CLOUD)
    rev_cm[pix] = OUT_POSS_CLOUD;
/* second loop, only if the DSWE band is available */
if (refl_input->dswe_buf[pix] > 0 && refl_input->dswe_buf[pix] <= 3)
    rev_cm[pix] = OUT_WATER;
``` -/
def composite_pix (rev_cm : Nat) (cfmask : Nat) (dswe : Option Nat) : Nat :=
  let r1 := if cfmask = CFMASK_FILL then 0 else rev_cm
  let r2 := if r1 = OUT_NOCLOUD ∧ cfmask = CFMASK_CLOUD then OUT_POSS_CLOUD else r1
  match dswe with
  | none => r2
  | some d => if 0 < d ∧ d ≤ 3 then OUT_WATER else r2

/-! ## Theorems for the compositor claims -/

/-- C1: counterexample.  A non-fill pixel (cfmask = CFMASK_CLOUD) whose
refined verdict is confirmed-cloud and whose DSWE water code is 1
(water-high-confidence) is output as OUT_WATER, not OUT_CLOUD: the water
loop of `main` overwrites confirmed-cloud. -/
theorem c1_cex :
    composite_pix OUT_CLOUD CFMASK_CLOUD (some 1) = OUT_WATER ∧
      OUT_WATER ≠ OUT_CLOUD := by
  constructor
  · rfl
  · decide

/-- C1 (amended): for every non-fill pixel whose refined verdict is
confirmed-cloud, the output is confirmed-cloud unless the water layer codes
the pixel 1, 2 or 3, in which case the water code replaces confirmed-cloud
in the output. -/
theorem c1_water_vs_cloud (rev cfm : Nat) (d : Option Nat)
    (hrev : rev = OUT_CLOUD) (hcf : cfm ≠ CFMASK_FILL) :
    composite_pix rev cfm d =
      (match d with
       | none => OUT_CLOUD
       | some w => if 0 < w ∧ w ≤ 3 then OUT_WATER else OUT_CLOUD) := by
  subst hrev
  cases d with
  | none =>
    simp [composite_pix, hcf, OUT_CLOUD, OUT_NOCLOUD, OUT_POSS_CLOUD]
  | some w =>
    simp only [composite_pix, if_neg hcf]
    by_cases hw : 0 < w ∧ w ≤ 3
    · simp [hw, OUT_CLOUD, OUT_NOCLOUD]
    · simp [hw, OUT_CLOUD, OUT_NOCLOUD]

/-- Witness for `c1_water_vs_cloud` at rev = OUT_CLOUD, cfmask =
CFMASK_CLOUD, water code 2. -/
theorem c1_water_vs_cloud_witness :
    OUT_CLOUD = OUT_CLOUD ∧ CFMASK_CLOUD ≠ CFMASK_FILL ∧
      composite_pix OUT_CLOUD CFMASK_CLOUD (some 2) =
        (if 0 < 2 ∧ 2 ≤ 3 then OUT_WATER else OUT_CLOUD) :=
  ⟨rfl, by decide,
    c1_water_vs_cloud OUT_CLOUD CFMASK_CLOUD (some 2) rfl (by decide)⟩

/-- C2: counterexample.  A coarse-fill pixel is not output as the fill code:
with no water layer it is output as 0 (the clear code, not the declared
output fill code CFMASK_FILL_VALUE = 255), and when the water layer codes
it 1 it is output as OUT_WATER = 3. -/
theorem c2_cex :
    composite_pix OUT_CLOUD CFMASK_FILL none = 0 ∧
      (0 : Nat) ≠ CFMASK_FILL ∧
      composite_pix OUT_CLOUD CFMASK_FILL (some 1) = OUT_WATER ∧
      OUT_WATER ≠ CFMASK_FILL := by
  refine ⟨rfl, by decide, rfl, by decide⟩

/-- C2 (amended): a coarse-fill pixel is reset to 0 — the clear code, which
the program uses to represent fill; the declared output fill code 255 is
never written — regardless of the refined verdict, and a water-layer code
of 1, 2 or 3 at that pixel still overwrites it to OUT_WATER. -/
theorem c2_fill_behavior (rev cfm : Nat) (d : Option Nat)
    (hcf : cfm = CFMASK_FILL) :
    composite_pix rev cfm d =
      (match d with
       | none => 0
       | some w => if 0 < w ∧ w ≤ 3 then OUT_WATER else 0) := by
  subst hcf
  cases d with
  | none =>
    simp [composite_pix, OUT_NOCLOUD, OUT_POSS_CLOUD, CFMASK_FILL, CFMASK_CLOUD]
  | some w =>
    by_cases hw : 0 < w ∧ w ≤ 3
    · simp [composite_pix, hw, OUT_NOCLOUD, CFMASK_FILL, CFMASK_CLOUD]
    · simp [composite_pix, hw, OUT_NOCLOUD, CFMASK_FILL, CFMASK_CLOUD]

/-- Witness for `c2_fill_behavior` at rev = OUT_CLOUD, cfmask = CFMASK_FILL,
water code 3 (partial surface water). -/
theorem c2_fill_behavior_witness :
    CFMASK_FILL = CFMASK_FILL ∧
      composite_pix OUT_CLOUD CFMASK_FILL (some 3) =
        (if 0 < 3 ∧ 3 ≤ 3 then OUT_WATER else 0) :=
  ⟨rfl, c2_fill_behavior OUT_CLOUD CFMASK_FILL (some 3) rfl⟩

/-- C4: counterexample.  A pixel with coarse flag CFMASK_CLOUD and refined
verdict clear is marked possibly-cloud by the first loop, but a water-layer
code of 1 then overwrites it to OUT_WATER, so the final output is not
OUT_POSS_CLOUD. -/
theorem c4_cex :
    composite_pix OUT_NOCLOUD CFMASK_CLOUD (some 1) = OUT_WATER ∧
      OUT_WATER ≠ OUT_POSS_CLOUD := by
  refine ⟨rfl, by decide⟩

/-- C4 (amended): for every pixel with coarse flag CFMASK_CLOUD (hence
non-fill) and refined verdict clear, the output is OUT_POSS_CLOUD unless
the water layer codes the pixel 1, 2 or 3, in which case it is OUT_WATER;
in neither case is the pixel left at clear. -/
theorem c4_poss_cloud (rev cfm : Nat) (d : Option Nat)
    (hrev : rev = OUT_NOCLOUD) (hcf : cfm = CFMASK_CLOUD) :
    composite_pix rev cfm d =
      (match d with
       | none => OUT_POSS_CLOUD
       | some w => if 0 < w ∧ w ≤ 3 then OUT_WATER else OUT_POSS_CLOUD) ∧
    composite_pix rev cfm d ≠ OUT_NOCLOUD := by
  subst hrev; subst hcf
  cases d with
  | none =>
    refine ⟨by decide, by decide⟩
  | some w =>
    by_cases hw : 0 < w ∧ w ≤ 3
    · constructor
      · simp [composite_pix, hw, OUT_NOCLOUD, OUT_POSS_CLOUD, OUT_WATER,
          CFMASK_FILL, CFMASK_CLOUD]
      · simp [composite_pix, hw, OUT_NOCLOUD, OUT_WATER,
          CFMASK_FILL, CFMASK_CLOUD]
    · constructor
      · simp [composite_pix, hw, OUT_NOCLOUD, OUT_POSS_CLOUD,
          CFMASK_FILL, CFMASK_CLOUD]
      · simp [composite_pix, hw, OUT_NOCLOUD, OUT_POSS_CLOUD,
          CFMASK_FILL, CFMASK_CLOUD]

/-- Witness for `c4_poss_cloud` at rev = OUT_NOCLOUD, cfmask = CFMASK_CLOUD,
no water layer. -/
theorem c4_poss_cloud_witness :
    OUT_NOCLOUD = OUT_NOCLOUD ∧ CFMASK_CLOUD = CFMASK_CLOUD ∧
      (composite_pix OUT_NOCLOUD CFMASK_CLOUD none = OUT_POSS_CLOUD ∧
        composite_pix OUT_NOCLOUD CFMASK_CLOUD none ≠ OUT_NOCLOUD) :=
  ⟨rfl, rfl, c4_poss_cloud OUT_NOCLOUD CFMASK_CLOUD none rfl rfl⟩

/-! ## Theorems for the spectral index claim (C7) -/

/-- C7: if either input reflectance equals the fill value, `make_index`
returns the fill sentinel; otherwise, for non-fill inputs with
band1 ≠ band2, the returned index is a finite value in [-1, 1] — including
the band1 = -band2 ≠ 0 case, where the unclamped IEEE ratio is ±inf and the
clamp maps it to ±1. -/
theorem c7_index_range (band1 band2 fill_value satu_value : Int) :
    ((band1 = fill_value ∨ band2 = fill_value) →
       make_index band1 band2 fill_value satu_value = .fin FILL_VALUE) ∧
    (band1 ≠ fill_value → band2 ≠ fill_value → band1 ≠ band2 →
       ∃ q : ℚ, make_index band1 band2 fill_value satu_value = .fin q ∧
         -1 ≤ q ∧ q ≤ 1) := by
  constructor
  · intro h
    simp [make_index, h]
  · intro h1 h2 hne
    have hor : ¬ (band1 = fill_value ∨ band2 = fill_value) := by tauto
    unfold make_index
    rw [if_neg hor]
    by_cases hden : (band1 : ℚ) + (band2 : ℚ) = 0
    · have hnum : (band1 : ℚ) - (band2 : ℚ) ≠ 0 := by
        intro h0
        apply hne
        have hq : (band1 : ℚ) = (band2 : ℚ) := by linarith
        exact_mod_cast hq
      rcases lt_trichotomy ((band1 : ℚ) - (band2 : ℚ)) 0 with hlt | heq | hgt
      · have hval : cdiv ((band1 : ℚ) - (band2 : ℚ)) ((band1 : ℚ) + (band2 : ℚ))
            = .ninf := by
          simp [cdiv, hden, hlt, not_lt.mpr (le_of_lt hlt)]
        refine ⟨-1, ?_, by norm_num, by norm_num⟩
        simp [hval, cgt, clt]
      · exact absurd heq hnum
      · have hval : cdiv ((band1 : ℚ) - (band2 : ℚ)) ((band1 : ℚ) + (band2 : ℚ))
            = .pinf := by
          simp [cdiv, hden, hgt]
        refine ⟨1, ?_, by norm_num, by norm_num⟩
        simp [hval, cgt]
    · have hval : cdiv ((band1 : ℚ) - (band2 : ℚ)) ((band1 : ℚ) + (band2 : ℚ))
          = .fin (((band1 : ℚ) - (band2 : ℚ)) / ((band1 : ℚ) + (band2 : ℚ))) := by
        simp [cdiv, hden]
      rw [hval]
      by_cases hq1 : ((band1 : ℚ) - (band2 : ℚ)) / ((band1 : ℚ) + (band2 : ℚ)) > 1
      · exact ⟨1, by simp [cgt, hq1], by norm_num, by norm_num⟩
      · by_cases hq2 : ((band1 : ℚ) - (band2 : ℚ)) / ((band1 : ℚ) + (band2 : ℚ)) < -1
        · exact ⟨-1, by simp [cgt, clt, hq1, hq2], by norm_num, by norm_num⟩
        · exact ⟨_, by simp [cgt, clt, hq1, hq2],
            le_of_not_lt hq2, le_of_not_lt hq1⟩

/-- Witness for `c7_index_range`: a fill input propagates the fill sentinel,
and band1 = 3, band2 = -3 (the infinite-ratio case) yields a finite index
in [-1, 1]. -/
theorem c7_index_range_witness :
    make_index (-9999) 5 (-9999) 20000 = .fin FILL_VALUE ∧
    (∃ q : ℚ, make_index 3 (-3) (-9999) 20000 = .fin q ∧ -1 ≤ q ∧ q ≤ 1) :=
  ⟨(c7_index_range (-9999) 5 (-9999) 20000).1 (Or.inl rfl),
   (c7_index_range 3 (-3) (-9999) 20000).2 (by decide) (by decide) (by decide)⟩

/-! ## Windowed variance estimator — src/unnamed/part_000 (`variance`)

The 1-D input/output arrays of `nlines * nsamps` elements are embedded as
functions on pixel indices.  The C routine fills the whole output with the
fill value, then computes, for each pixel whose 9x9 window lies inside the
image (`HALF_WINDOW = 4`), the two-pass sample variance of the scaled
window values, unless the window contains a fill sample.  The embedding is
the per-(line,samp) value of the output array. -/

/-- The 81 window samples around `(line, samp)`, in the C iteration order:
`array[(line + line_window) * nsamps + (samp - 4 + samp_window)]` for
`line_window, samp_window` sweeping `-4..4`. -/
def window_vals (array : Int → Int) (nsamps line samp : Int) : List Int :=
  (List.range 9).flatMap (fun i => (List.range 9).map (fun j =>
    array ((line + (i : Int) - 4) * nsamps + (samp + (j : Int) - 4))))

/-- Two-pass sample variance of the window values:
`avg = sum / SQR_WINDOW; var = Σ diff*diff / (SQR_WINDOW - 1)` with
`SQR_WINDOW = 81` (the average is written inline). -/
def var_exact (ws : List ℚ) : ℚ :=
  ((ws.map (fun x => (x - ws.sum / 81) * (x - ws.sum / 81))).sum) / 80

/-- The C `(int32)` cast: truncation toward zero. -/
def trunc_int (x : ℚ) : Int := if 0 ≤ x then ⌊x⌋ else ⌈x⌉

/-- Value of the output `variance` array at `(line, samp)`
(src/unnamed/part_000 lines 56-133):

* border pixels (window not fully interior) keep the initial fill value;
* a window containing a fill sample keeps the fill value (`skip_window`);
* otherwise the window is scaled by `scale_factor`, the two-pass variance
  is computed, and stored as an int32 after the half-away-from-zero
  rounding, multiplied by `out_scale` — `1.0` when
  `fabs(scale_factor - 1.0) < 0.00001`, otherwise `FLOAT_TO_INT`. -/
def variance_out (array : Int → Int) (scale_factor : ℚ) (fill_value : Int)
    (nlines nsamps line samp : Int) : Int :=
  if 4 ≤ line ∧ line < nlines - 4 ∧ 4 ≤ samp ∧ samp < nsamps - 4 then
    let ws := window_vals array nsamps line samp
    if ws.any (fun x => decide (x = fill_value)) then fill_value
    else
      let out_scale : ℚ := if |scale_factor - 1| < 1 / 100000 then 1 else FLOAT_TO_INT
      let varq := var_exact (ws.map (fun x : Int => (x : ℚ) * scale_factor))
      if 0 ≤ varq then trunc_int (varq * out_scale + 1 / 2)
      else trunc_int (varq * out_scale - 1 / 2)
  else fill_value

/-- The two-pass sample variance is non-negative (sum of squares over a
positive divisor). -/
theorem var_exact_nonneg (ws : List ℚ) : 0 ≤ var_exact ws := by
  unfold var_exact
  apply div_nonneg _ (by norm_num)
  apply List.sum_nonneg
  intro x hx
  simp only [List.mem_map] at hx
  obtain ⟨y, _, rfl⟩ := hx
  exact mul_self_nonneg _

/-- Sums distribute over a common right factor (helper for the scaling law). -/
theorem sum_map_mul_right_q (l : List ℚ) (f : ℚ → ℚ) (d : ℚ) :
    (l.map (fun x => f x * d)).sum = (l.map f).sum * d := by
  induction l with
  | nil => simp
  | cons a t ih =>
    simp only [List.map_cons, List.sum_cons, ih]
    ring

/-- Scaling every sample by `c` scales the two-pass variance by `c * c`. -/
theorem var_exact_map_mul (ws : List ℚ) (c : ℚ) :
    var_exact (ws.map (fun x => x * c)) = var_exact ws * (c * c) := by
  unfold var_exact
  have hsum : (ws.map (fun x => x * c)).sum = ws.sum * c := by
    have h := sum_map_mul_right_q ws (fun x => x) c
    simpa using h
  rw [hsum, List.map_map]
  have hmap : (ws.map ((fun x => (x - ws.sum * c / 81) * (x - ws.sum * c / 81)) ∘
      (fun x => x * c))) =
      ws.map (fun x => ((x - ws.sum / 81) * (x - ws.sum / 81)) * (c * c)) := by
    apply List.map_congr_left
    intro a _
    simp only [Function.comp_apply]
    ring
  rw [hmap, sum_map_mul_right_q]
  ring

/-- C10: for every fill-free interior window, the computed variance is
non-negative, so the output takes the `var >= 0.0` rounding branch
(`var * out_scale + 0.5`, truncated) and the resulting non-fill output
value is `>= 0`. -/
theorem c10_variance_nonneg (array : Int → Int) (scale_factor : ℚ)
    (fill_value : Int) (nlines nsamps line samp : Int)
    (hin : 4 ≤ line ∧ line < nlines - 4 ∧ 4 ≤ samp ∧ samp < nsamps - 4)
    (hnf : (window_vals array nsamps line samp).any
        (fun x => decide (x = fill_value)) = false) :
    variance_out array scale_factor fill_value nlines nsamps line samp
      = trunc_int (var_exact ((window_vals array nsamps line samp).map
          (fun x : Int => (x : ℚ) * scale_factor)) *
          (if |scale_factor - 1| < 1 / 100000 then 1 else FLOAT_TO_INT) + 1 / 2) ∧
    0 ≤ variance_out array scale_factor fill_value nlines nsamps line samp := by
  have hvar : 0 ≤ var_exact ((window_vals array nsamps line samp).map
      (fun x : Int => (x : ℚ) * scale_factor)) := var_exact_nonneg _
  have hout : variance_out array scale_factor fill_value nlines nsamps line samp
      = trunc_int (var_exact ((window_vals array nsamps line samp).map
          (fun x : Int => (x : ℚ) * scale_factor)) *
          (if |scale_factor - 1| < 1 / 100000 then 1 else FLOAT_TO_INT) + 1 / 2) := by
    simp only [variance_out]
    rw [if_pos hin, if_neg (by simp [hnf]), if_pos hvar]
  refine ⟨hout, ?_⟩
  rw [hout]
  have hos : (0 : ℚ) ≤ (if |scale_factor - 1| < 1 / 100000 then 1 else FLOAT_TO_INT) := by
    split
    · norm_num
    · norm_num [FLOAT_TO_INT]
  have hx : (0 : ℚ) ≤ var_exact ((window_vals array nsamps line samp).map
      (fun x : Int => (x : ℚ) * scale_factor)) *
      (if |scale_factor - 1| < 1 / 100000 then 1 else FLOAT_TO_INT) + 1 / 2 := by
    have := mul_nonneg hvar hos
    linarith
  simp only [trunc_int]
  rw [if_pos hx]
  exact Int.floor_nonneg.mpr hx

/-- Witness for `c10_variance_nonneg`: constant array 7 over a 9x9 image,
fill -9999, scale 1, center pixel (4,4). -/
theorem c10_variance_nonneg_witness :
    ((4 : Int) ≤ 4 ∧ (4 : Int) < 9 - 4 ∧ (4 : Int) ≤ 4 ∧ (4 : Int) < 9 - 4) ∧
    ((window_vals (fun _ => 7) 9 4 4).any (fun x => decide (x = -9999)) = false) ∧
    (variance_out (fun _ => 7) 1 (-9999) 9 9 4 4
        = trunc_int (var_exact ((window_vals (fun _ => 7) 9 4 4).map
            (fun x : Int => (x : ℚ) * 1)) *
            (if |(1 : ℚ) - 1| < 1 / 100000 then 1 else FLOAT_TO_INT) + 1 / 2) ∧
      0 ≤ variance_out (fun _ => 7) 1 (-9999) 9 9 4 4) :=
  ⟨by decide, by rfl,
    c10_variance_nonneg (fun _ => 7) 1 (-9999) 9 9 4 4 (by decide) (by rfl)⟩

/-- C8: at every fill-free interior pixel, the exact two-pass variance of
the run with scale factor 0.0001 equals the variance of the scale-1.0 run
times the square of the scale ratio, and the stored outputs are the
half-away-from-zero roundings of those values — with the `FLOAT_TO_INT`
(10000.0) output multiplier applied only in the non-unit-scale run (in the
scale-1.0 run `out_scale` is 1.0). -/
theorem c8_variance_scale (array : Int → Int) (fill_value : Int)
    (nlines nsamps line samp : Int)
    (hin : 4 ≤ line ∧ line < nlines - 4 ∧ 4 ≤ samp ∧ samp < nsamps - 4)
    (hnf : (window_vals array nsamps line samp).any
        (fun x => decide (x = fill_value)) = false) :
    var_exact ((window_vals array nsamps line samp).map
        (fun x : Int => (x : ℚ) * (1 / 10000)))
      = var_exact ((window_vals array nsamps line samp).map (fun x : Int => (x : ℚ)))
          * (1 / 10000 * (1 / 10000)) ∧
    variance_out array 1 fill_value nlines nsamps line samp
      = trunc_int (var_exact ((window_vals array nsamps line samp).map
          (fun x : Int => (x : ℚ))) + 1 / 2) ∧
    variance_out array (1 / 10000) fill_value nlines nsamps line samp
      = trunc_int (var_exact ((window_vals array nsamps line samp).map
          (fun x : Int => (x : ℚ))) * (1 / 10000 * (1 / 10000)) * FLOAT_TO_INT + 1 / 2) := by
  have hcomp : ∀ c : ℚ, (window_vals array nsamps line samp).map (fun x : Int => (x : ℚ) * c)
      = ((window_vals array nsamps line samp).map (fun x : Int => (x : ℚ))).map
          (fun x => x * c) := by
    intro c
    rw [List.map_map]
    rfl
  have hscale : var_exact ((window_vals array nsamps line samp).map
        (fun x : Int => (x : ℚ) * (1 / 10000)))
      = var_exact ((window_vals array nsamps line samp).map (fun x : Int => (x : ℚ)))
          * (1 / 10000 * (1 / 10000)) := by
    rw [hcomp, var_exact_map_mul]
  refine ⟨hscale, ?_, ?_⟩
  · obtain ⟨h1, -⟩ :=
      c10_variance_nonneg array 1 fill_value nlines nsamps line samp hin hnf
    rw [h1]
    norm_num
  · obtain ⟨h2, -⟩ :=
      c10_variance_nonneg array (1 / 10000) fill_value nlines nsamps line samp hin hnf
    have hcond : ¬ (|(1 : ℚ) / 10000 - 1| < 1 / 100000) := by
      rw [abs_of_neg (by norm_num : (1 : ℚ) / 10000 - 1 < 0)]
      norm_num
    rw [h2, hscale, if_neg hcond]

/-- Witness for `c8_variance_scale`: constant array 7 over a 9x9 image,
fill -9999, center pixel (4,4). -/
theorem c8_variance_scale_witness :
    ((4 : Int) ≤ 4 ∧ (4 : Int) < 9 - 4 ∧ (4 : Int) ≤ 4 ∧ (4 : Int) < 9 - 4) ∧
    ((window_vals (fun _ => 7) 9 4 4).any (fun x => decide (x = -9999)) = false) ∧
    (var_exact ((window_vals (fun _ => 7) 9 4 4).map (fun x : Int => (x : ℚ) * (1 / 10000)))
        = var_exact ((window_vals (fun _ => 7) 9 4 4).map (fun x : Int => (x : ℚ)))
            * (1 / 10000 * (1 / 10000)) ∧
      variance_out (fun _ => 7) 1 (-9999) 9 9 4 4
        = trunc_int (var_exact ((window_vals (fun _ => 7) 9 4 4).map
            (fun x : Int => (x : ℚ))) + 1 / 2) ∧
      variance_out (fun _ => 7) (1 / 10000) (-9999) 9 9 4 4
        = trunc_int (var_exact ((window_vals (fun _ => 7) 9 4 4).map
            (fun x : Int => (x : ℚ))) * (1 / 10000 * (1 / 10000)) * FLOAT_TO_INT + 1 / 2)) :=
  ⟨by decide, by rfl,
    c8_variance_scale (fun _ => 7) (-9999) 9 9 4 4 (by decide) (by rfl)⟩

/-! ## Morphological mask refiner — src/fSCA/src/revised_cm/revised_cloud_mask.c
lines 211-273

`main` copies the revised cloud mask into one OpenCV image and then runs

```c
element = cvCreateStructuringElementEx (5, 5, 1, 1, CV_SHAPE_RECT, NULL);
cvErode (cv_img, cv_img, element, 1);
cvDilate (cv_img, cv_img, element, 1);
```

Both calls use the same buffer as source and destination, so the dilation
pass consumes the raster the erosion pass produced.  The library operators
are modelled from their documented semantics: grayscale erosion (dilation)
takes the minimum (maximum) of the source over the kernel cells, offset by
the anchor (1,1), with out-of-range indices clamped to the raster (the
library's replicate border handling, which the spec describes as clamping
at the border). -/

/-- Replicate-border clamping of a raster index to `[0, n-1]`. -/
def clampI (n i : Int) : Int := max 0 (min i (n - 1))

/-- Offsets covered by the 5x5 rectangular structuring element with anchor
(1, 1): kernel cell `k ∈ [0, 5)` touches offset `k - 1`. -/
def se_offsets : List Int := [-1, 0, 1, 2, 3]

/-- The raster positions read under the structuring element centered (via
the anchor) on `(l, s)`, with replicate-border clamping. -/
def se_window (nl ns l s : Int) : List (Int × Int) :=
  se_offsets.flatMap (fun dl =>
    se_offsets.map (fun ds => (clampI nl (l + dl), clampI ns (s + ds))))

/-- `cvErode`: minimum of the 8-bit source over the structuring element
(255 is the identity of `min` on 8-bit data). -/
def cvErodeAt (img : Int → Int → Nat) (nl ns l s : Int) : Nat :=
  ((se_window nl ns l s).map (fun q => img q.1 q.2)).foldr min 255

/-- `cvDilate`: maximum of the 8-bit source over the structuring element
(0 is the identity of `max` on 8-bit data). -/
def cvDilateAt (img : Int → Int → Nat) (nl ns l s : Int) : Nat :=
  ((se_window nl ns l s).map (fun q => img q.1 q.2)).foldr max 0

/-- The refiner of `main` lines 260-262: erode in place, then dilate the
buffer the erosion just wrote. -/
def refine_cloud_mask (img : Int → Int → Nat) (nl ns : Int) : Int → Int → Nat :=
  let eroded := fun l s => cvErodeAt img nl ns l s
  fun l s => cvDilateAt eroded nl ns l s

/-- The structuring-element window always has 25 cells. -/
theorem se_window_length (nl ns l s : Int) : (se_window nl ns l s).length = 25 := rfl

/-- `min`-fold over 0/2-valued samples: 2 exactly when the list is nonempty
and all samples are 2. -/
theorem foldr_min_two_eq (vs : List Nat) (hv : ∀ x ∈ vs, x = 0 ∨ x = 2) :
    vs.foldr min 255 =
      (if vs.all (fun x => decide (x = 2)) then (if vs.isEmpty then 255 else 2)
       else 0) := by
  induction vs with
  | nil => simp
  | cons a t ih =>
    have ha := hv a (List.mem_cons_self a t)
    have ht : ∀ x ∈ t, x = 0 ∨ x = 2 := fun x hx => hv x (List.mem_cons_of_mem a hx)
    have ihx := ih ht
    rcases ha with ha | ha <;> subst ha
    · simp [List.foldr_cons]
    · simp only [List.foldr_cons, ihx, List.all_cons, List.isEmpty_cons]
      by_cases hall : t.all (fun x => decide (x = 2))
      · by_cases hemp : t.isEmpty
        · simp [hall, hemp]
        · simp [hall, hemp]
      · simp [hall]

/-- `max`-fold over 0/2-valued samples: 2 exactly when some sample is 2. -/
theorem foldr_max_two_eq (vs : List Nat) (hv : ∀ x ∈ vs, x = 0 ∨ x = 2) :
    vs.foldr max 0 = (if vs.any (fun x => decide (x = 2)) then 2 else 0) := by
  induction vs with
  | nil => simp
  | cons a t ih =>
    have ha := hv a (List.mem_cons_self a t)
    have ht : ∀ x ∈ t, x = 0 ∨ x = 2 := fun x hx => hv x (List.mem_cons_of_mem a hx)
    have ihx := ih ht
    rcases ha with ha | ha <;> subst ha
    · simp only [List.foldr_cons, ihx, List.any_cons]
      by_cases hany : t.any (fun x => decide (x = 2))
      · simp [hany]
      · simp [hany]
    · simp only [List.foldr_cons, ihx, List.any_cons]
      by_cases hany : t.any (fun x => decide (x = 2))
      · simp [hany]
      · simp [hany]

/-- Erosion of a 0/2-valued raster yields 2 exactly when every raster value
under the structuring element is 2. -/
theorem cvErodeAt_eq_two_iff (img : Int → Int → Nat) (nl ns l s : Int)
    (hb : ∀ a b : Int, img a b = 0 ∨ img a b = 2) :
    cvErodeAt img nl ns l s = 2 ↔ ∀ r ∈ se_window nl ns l s, img r.1 r.2 = 2 := by
  have hvals : ∀ x ∈ (se_window nl ns l s).map (fun q => img q.1 q.2),
      x = 0 ∨ x = 2 := by
    intro x hx
    rcases List.mem_map.mp hx with ⟨q, _, rfl⟩
    exact hb q.1 q.2
  have hne : ((se_window nl ns l s).map (fun q => img q.1 q.2)).isEmpty = false := rfl
  unfold cvErodeAt
  rw [foldr_min_two_eq _ hvals, hne]
  by_cases hall : ((se_window nl ns l s).map (fun q => img q.1 q.2)).all
      (fun x => decide (x = 2)) = true
  · rw [if_pos hall]
    simp only [Bool.false_eq_true, if_false]
    constructor
    · intro _ r hr
      have hx := List.all_eq_true.mp hall (img r.1 r.2) (List.mem_map_of_mem _ hr)
      exact of_decide_eq_true hx
    · intro _
      trivial
  · rw [if_neg hall]
    constructor
    · intro h
      exact absurd h (by decide)
    · intro hforall
      exfalso
      apply hall
      apply List.all_eq_true.mpr
      intro x hx
      rcases List.mem_map.mp hx with ⟨q, hq, rfl⟩
      exact decide_eq_true (hforall q hq)

/-- Erosion of a 0/2-valued raster is 0/2-valued. -/
theorem cvErodeAt_two_or_zero (img : Int → Int → Nat) (nl ns l s : Int)
    (hb : ∀ a b : Int, img a b = 0 ∨ img a b = 2) :
    cvErodeAt img nl ns l s = 0 ∨ cvErodeAt img nl ns l s = 2 := by
  have hvals : ∀ x ∈ (se_window nl ns l s).map (fun q => img q.1 q.2),
      x = 0 ∨ x = 2 := by
    intro x hx
    rcases List.mem_map.mp hx with ⟨q, _, rfl⟩
    exact hb q.1 q.2
  have hne : ((se_window nl ns l s).map (fun q => img q.1 q.2)).isEmpty = false := rfl
  unfold cvErodeAt
  rw [foldr_min_two_eq _ hvals, hne]
  by_cases hall : ((se_window nl ns l s).map (fun q => img q.1 q.2)).all
      (fun x => decide (x = 2)) = true
  · rw [if_pos hall]
    right
    simp
  · rw [if_neg hall]
    left
    rfl

/-- C3 (amended): the dilation pass consumes the output of the erosion pass
(both run in place on one OpenCV buffer), so the refined raster is the
standard opening: a pixel is flagged in the result iff some pixel under the
structuring element has its entire structuring-element neighborhood flagged
in the original verdict raster. -/
theorem c3_dilation_reads_eroded (img : Int → Int → Nat) (nl ns l s : Int)
    (hb : ∀ a b : Int, img a b = 0 ∨ img a b = OUT_CLOUD) :
    refine_cloud_mask img nl ns l s = OUT_CLOUD ↔
      ∃ q ∈ se_window nl ns l s,
        ∀ r ∈ se_window nl ns q.1 q.2, img r.1 r.2 = OUT_CLOUD := by
  have hb2 : ∀ a b : Int, img a b = 0 ∨ img a b = 2 := hb
  show cvDilateAt (fun a b => cvErodeAt img nl ns a b) nl ns l s = 2 ↔ _
  have hvals : ∀ x ∈ (se_window nl ns l s).map
      (fun q => cvErodeAt img nl ns q.1 q.2), x = 0 ∨ x = 2 := by
    intro x hx
    rcases List.mem_map.mp hx with ⟨q, _, rfl⟩
    exact cvErodeAt_two_or_zero img nl ns q.1 q.2 hb2
  unfold cvDilateAt
  rw [foldr_max_two_eq _ hvals]
  by_cases hany : ((se_window nl ns l s).map
      (fun q => cvErodeAt img nl ns q.1 q.2)).any (fun x => decide (x = 2)) = true
  · rw [if_pos hany]
    constructor
    · intro _
      rcases List.any_eq_true.mp hany with ⟨x, hx, hx2⟩
      rcases List.mem_map.mp hx with ⟨q, hq, rfl⟩
      exact ⟨q, hq,
        (cvErodeAt_eq_two_iff img nl ns q.1 q.2 hb2).mp (of_decide_eq_true hx2)⟩
    · intro _
      rfl
  · rw [if_neg hany]
    constructor
    · intro h
      exact absurd h (by decide)
    · rintro ⟨q, hq, hall⟩
      exfalso
      apply hany
      apply List.any_eq_true.mpr
      exact ⟨cvErodeAt img nl ns q.1 q.2, List.mem_map_of_mem _ hq,
        decide_eq_true ((cvErodeAt_eq_two_iff img nl ns q.1 q.2 hb2).mpr hall)⟩

/-- A 5x5 verdict raster whose only flagged pixel is the center (2,2). -/
def img_single : Int → Int → Nat := fun l s => if l = 2 ∧ s = 2 then 2 else 0

set_option maxRecDepth 10000

/-- C3: counterexample.  On the single-center-pixel raster the refiner
output (erode, then dilate the eroded buffer) is 0 at the center, while
dilation applied to the original, un-eroded raster is OUT_CLOUD there — so
the refiner's result does not equal dilation of the un-eroded verdict. -/
theorem c3_cex :
    refine_cloud_mask img_single 5 5 2 2 = 0 ∧
      cvDilateAt img_single 5 5 2 2 = OUT_CLOUD ∧
      refine_cloud_mask img_single 5 5 2 2 ≠ cvDilateAt img_single 5 5 2 2 := by
  refine ⟨by decide, by decide, by decide⟩

/-- Witness for `c3_dilation_reads_eroded` on the single-center-pixel
raster at the center pixel. -/
theorem c3_dilation_reads_eroded_witness :
    (∀ a b : Int, img_single a b = 0 ∨ img_single a b = OUT_CLOUD) ∧
      (refine_cloud_mask img_single 5 5 2 2 = OUT_CLOUD ↔
        ∃ q ∈ se_window 5 5 2 2,
          ∀ r ∈ se_window 5 5 q.1 q.2, img_single r.1 r.2 = OUT_CLOUD) :=
  ⟨fun a b => by
      by_cases h : a = 2 ∧ b = 2
      · right
        simp [img_single, h, OUT_CLOUD]
      · left
        simp [img_single, h],
    c3_dilation_reads_eroded img_single 5 5 2 2 (fun a b => by
      by_cases h : a = 2 ∧ b = 2
      · right
        simp [img_single, h, OUT_CLOUD]
      · left
        simp [img_single, h])⟩

/-! ## Rule-based ensemble classifier — src/fSCA/src/revised_cm/rule_based_model.c

`rule_based_model` processes one line: it zeroes the output
(`memset (rev_cloud_mask, 0, ...)`), skips every sample whose cfmask value
is not `CFMASK_CLOUD`, and for the remaining samples evaluates five
hard-coded decision lists over `b1..b5, b7` (scaled reflectance, as-is),
`ndvi = make_index(b4, b3)` and `ndsi = make_index(b2, b5)`.  The samples
are independent, so the embedding is per-pixel.  Each C if-chain guarded by
`mX_cloud_code == -1` is first-match-wins evaluation of an ordered rule
list with a default, embedded as `DecisionList`. -/

/-- The per-pixel inputs of `rule_based_model`: the six reflectance band
values read from `refl_buf[0..5]`, plus the product's fill and saturation
values used by `make_index`. -/
structure Pixel where
  b1 : Int
  b2 : Int
  b3 : Int
  b4 : Int
  b5 : Int
  b7 : Int
  refl_fill : Int
  refl_saturate_val : Int

/-- `ndvi = make_index (b4, b3, refl_fill, refl_saturate_val)`. -/
def ndvi (p : Pixel) : Cfloat := make_index p.b4 p.b3 p.refl_fill p.refl_saturate_val

/-- `ndsi = make_index (b2, b5, refl_fill, refl_saturate_val)`. -/
def ndsi (p : Pixel) : Cfloat := make_index p.b2 p.b5 p.refl_fill p.refl_saturate_val

/-- One rule of a decision list: the conjunction of threshold comparisons
(the C condition after the `mX_cloud_code == -1` guard) and the class code
it assigns (50 = cloud_free, 100 = cloud). -/
structure CRule where
  cond : Pixel → Bool
  code : Int

/-- One ensemble member: the ordered rules and the fall-through default
class code. -/
structure DecisionList where
  rules : List CRule
  dflt : Int

/-- First-match-wins evaluation: exactly the C chain of
`if (mX_cloud_code == -1 && cond) mX_cloud_code = code;` statements
followed by `if (mX_cloud_code == -1) mX_cloud_code = dflt;`. -/
def run_rules (p : Pixel) : List CRule → Int → Int
  | [], d => d
  | r :: rest, d => if r.cond p then r.code else run_rules p rest d

/-- The class code an ensemble member assigns to a pixel. -/
def evalDL (dl : DecisionList) (p : Pixel) : Int := run_rules p dl.rules dl.dflt

/-- 1st model run (rules `0/1` .. `0/23`, lines 95-200).  The fall-through
default at lines 199-200 is the cloud code 100. -/
def model1 : DecisionList where
  rules := [
    ⟨fun p => decide (p.b3 > 1424) && decide (p.b7 ≤ 1187), 50⟩, -- Rule 0/1
    ⟨fun p => decide (p.b1 ≤ 2999) && cle (ndvi p) 0.158153 &&
      cle (ndsi p) (-0.212327), 50⟩, -- Rule 0/2
    ⟨fun p => decide (p.b1 ≤ 2079) && decide (p.b3 > 2080), 50⟩, -- Rule 0/3
    ⟨fun p => decide (p.b1 > 6251) && decide (p.b4 ≤ 5012) &&
      decide (p.b7 ≤ 2077), 50⟩, -- Rule 0/4
    ⟨fun p => decide (p.b1 ≤ 2483) && decide (p.b3 > 2408) &&
      cgt (ndsi p) (-0.212327), 50⟩, -- Rule 0/5
    ⟨fun p => decide (p.b1 ≤ 2999) && decide (p.b2 > 2771) &&
      cle (ndvi p) 0.0912175, 50⟩, -- Rule 0/6
    ⟨fun p => decide (p.b4 > 4172) && decide (p.b7 ≤ 1464), 50⟩, -- Rule 0/7
    ⟨fun p => decide (p.b1 ≤ 3532) && decide (p.b3 > 1727) &&
      decide (p.b4 > 1928) && decide (p.b7 ≤ 1464), 50⟩, -- Rule 0/8
    ⟨fun p => decide (p.b1 ≤ 2999) && decide (p.b2 > 1970) &&
      decide (p.b5 ≤ 1937) && decide (p.b7 ≤ 1619) &&
      cle (ndvi p) 0.0912175, 50⟩, -- Rule 0/9
    ⟨fun p => decide (p.b1 > 2999) && decide (p.b1 ≤ 3589) &&
      decide (p.b4 > 3588) && decide (p.b7 ≤ 2077), 50⟩, -- Rule 0/10
    ⟨fun p => decide (p.b1 ≤ 2999) && decide (p.b4 > 3173) &&
      cgt (ndsi p) (-0.0444104), 50⟩, -- Rule 0/11
    ⟨fun p => decide (p.b1 ≤ 1600) && decide (p.b4 ≤ 1928), 50⟩, -- Rule 0/12
    ⟨fun p => decide (p.b4 ≤ 2729) && cle (ndsi p) (-0.212327), 50⟩, -- Rule 0/13
    ⟨fun p => decide (p.b1 ≤ 2638) && decide (p.b5 > 1937) &&
      cle (ndvi p) 0.0912175, 50⟩, -- Rule 0/14
    ⟨fun p => decide (p.b7 ≤ 1799) && cle (ndsi p) (-0.212327), 50⟩, -- Rule 0/15
    ⟨fun p => decide (p.b1 ≤ 1993) && decide (p.b5 > 1937) &&
      decide (p.b7 > 1464) && cle (ndvi p) 0.210062, 50⟩, -- Rule 0/16
    ⟨fun p => decide (p.b1 ≤ 2999), 50⟩, -- Rule 0/17
    ⟨fun p => decide (p.b1 > 2483) && cgt (ndvi p) 0.0912175 &&
      cle (ndsi p) (-0.0444104), 100⟩, -- Rule 0/18
    ⟨fun p => decide (p.b7 > 1266) && cgt (ndsi p) 0.491986, 100⟩, -- Rule 0/19
    ⟨fun p => decide (p.b7 > 1464) && cgt (ndvi p) 0.210062 &&
      cgt (ndsi p) (-0.212327), 100⟩, -- Rule 0/20
    ⟨fun p => decide (p.b1 > 1600) && decide (p.b3 ≤ 1299) &&
      decide (p.b4 ≤ 1928) && decide (p.b7 > 919) &&
      decide (p.b7 ≤ 1464), 100⟩, -- Rule 0/21
    ⟨fun p => decide (p.b1 > 1451) && decide (p.b3 ≤ 1139) &&
      decide (p.b7 ≤ 919) && cgt (ndvi p) 0.0602801 &&
      cle (ndvi p) 0.421493 && cle (ndsi p) 0.169811, 100⟩, -- Rule 0/22
    ⟨fun p => decide (p.b1 > 1802) && decide (p.b7 > 919), 100⟩ -- Rule 0/23
  ]
  dflt := 100

/-- 2nd model run (rules `1/1` .. `1/27`, lines 204-329).  The fall-through
default at lines 328-329 is the cloud_free code 50. -/
def model2 : DecisionList where
  rules := [
    ⟨fun p => decide (p.b4 > 6829) && decide (p.b5 ≤ 3315), 50⟩, -- Rule 1/1
    ⟨fun p => cgt (ndvi p) 0.44504, 50⟩, -- Rule 1/2
    ⟨fun p => decide (p.b1 ≤ 3544) && decide (p.b4 > 4212) &&
      decide (p.b5 > 1136) && decide (p.b5 ≤ 3315), 50⟩, -- Rule 1/3
    ⟨fun p => decide (p.b3 > 1258) && decide (p.b5 ≤ 1136), 50⟩, -- Rule 1/4
    ⟨fun p => decide (p.b1 ≤ 3544) && decide (p.b5 > 1136) &&
      decide (p.b7 ≤ 1067) && cgt (ndsi p) 0.143936, 50⟩, -- Rule 1/5
    ⟨fun p => decide (p.b1 > 6251) && decide (p.b7 ≤ 1683), 50⟩, -- Rule 1/6
    ⟨fun p => decide (p.b1 > 1555) && decide (p.b1 ≤ 2321) &&
      decide (p.b4 ≤ 3520) && decide (p.b5 > 2467) &&
      decide (p.b7 ≤ 1726), 50⟩, -- Rule 1/7
    ⟨fun p => decide (p.b1 ≤ 3544) && decide (p.b2 > 3236) &&
      decide (p.b5 ≤ 3315), 50⟩, -- Rule 1/8
    ⟨fun p => decide (p.b1 ≤ 2835) && decide (p.b3 > 2538) &&
      cgt (ndsi p) (-0.106196) && cle (ndsi p) 0.143936, 50⟩, -- Rule 1/9
    ⟨fun p => decide (p.b4 ≤ 4001) && decide (p.b5 > 3315) &&
      cle (ndvi p) 0.0617448, 50⟩, -- Rule 1/10
    ⟨fun p => decide (p.b1 ≤ 2082) && decide (p.b3 > 1839) &&
      decide (p.b4 ≤ 3520), 50⟩, -- Rule 1/11
    ⟨fun p => decide (p.b4 ≤ 4001), 50⟩, -- Rule 1/12
    ⟨fun p => decide (p.b4 > 4001) && decide (p.b5 > 3315), 100⟩, -- Rule 1/13
    ⟨fun p => decide (p.b1 > 2043) && decide (p.b2 ≤ 1763) &&
      cle (ndsi p) 0.143936, 100⟩, -- Rule 1/14
    ⟨fun p => decide (p.b1 > 3544) && decide (p.b7 > 1683), 100⟩, -- Rule 1/15
    ⟨fun p => decide (p.b1 > 2599) && decide (p.b5 > 3315) &&
      cgt (ndvi p) 0.0617448, 100⟩, -- Rule 1/16
    ⟨fun p => decide (p.b1 > 2835) && cle (ndsi p) 0.143936, 100⟩, -- Rule 1/17
    ⟨fun p => decide (p.b1 > 3264) && decide (p.b2 ≤ 3334) &&
      decide (p.b7 > 1067), 100⟩, -- Rule 1/18
    ⟨fun p => decide (p.b1 > 2151) && decide (p.b2 ≤ 1898) &&
      decide (p.b5 > 1537), 100⟩, -- Rule 1/19
    ⟨fun p => decide (p.b1 > 2082) && decide (p.b3 ≤ 1994) &&
      cgt (ndvi p) 0.179141 && cle (ndsi p) 0.143936, 100⟩, -- Rule 1/20
    ⟨fun p => decide (p.b1 > 3544) && decide (p.b1 ≤ 6251) &&
      decide (p.b4 ≤ 6829) && decide (p.b5 > 1136), 100⟩, -- Rule 1/21
    ⟨fun p => decide (p.b2 ≤ 2204) && decide (p.b4 > 3520) &&
      decide (p.b5 ≤ 3315) && cle (ndvi p) 0.44504 &&
      cle (ndsi p) 0.143936, 100⟩, -- Rule 1/22
    ⟨fun p => decide (p.b1 > 1800) && decide (p.b1 ≤ 2082) &&
      decide (p.b3 ≤ 1839) && decide (p.b5 ≤ 3315) &&
      decide (p.b7 > 1342) && cgt (ndvi p) 0.179141 &&
      cle (ndvi p) 0.207702, 100⟩, -- Rule 1/23
    ⟨fun p => decide (p.b1 > 2321) && decide (p.b2 ≤ 3236) &&
      decide (p.b4 ≤ 4212) && decide (p.b5 ≤ 3315) &&
      cle (ndsi p) 0.143936, 100⟩, -- Rule 1/24
    ⟨fun p => decide (p.b1 > 1555) && decide (p.b1 ≤ 1800) &&
      decide (p.b3 ≤ 1839) && decide (p.b5 > 1537) &&
      cgt (ndvi p) 0.179141 && cle (ndvi p) 0.44504 &&
      cle (ndsi p) (-0.0472716), 100⟩, -- Rule 1/25
    ⟨fun p => decide (p.b1 > 1182) && decide (p.b5 > 1136) &&
      decide (p.b5 ≤ 1537) && decide (p.b7 > 542) &&
      cle (ndvi p) 0.44504 && cle (ndsi p) 0.143936, 100⟩, -- Rule 1/26
    ⟨fun p => decide (p.b3 ≤ 1258) && decide (p.b5 ≤ 1136) &&
      decide (p.b7 > 542) && cle (ndvi p) 0.44504, 100⟩ -- Rule 1/27
  ]
  dflt := 50

/-- 3rd model run (rules `2/1` .. `2/31`, lines 333-479).  The fall-through
default at lines 478-479 is the cloud code 100. -/
def model3 : DecisionList where
  rules := [
    ⟨fun p => decide (p.b1 ≤ 2497) && decide (p.b3 > 2156) &&
      decide (p.b3 ≤ 2276) && decide (p.b7 ≤ 1626) &&
      cgt (ndvi p) 0.0650248, 50⟩, -- Rule 2/1
    ⟨fun p => cgt (ndsi p) 0.881556, 50⟩, -- Rule 2/2
    ⟨fun p => decide (p.b2 > 3653) && decide (p.b7 ≤ 1626) &&
      cgt (ndvi p) 0.0650248, 50⟩, -- Rule 2/3
    ⟨fun p => decide (p.b1 ≤ 2497) && decide (p.b3 > 1979) &&
      decide (p.b7 ≤ 1626) && cle (ndsi p) 0.0546875, 50⟩, -- Rule 2/4
    ⟨fun p => decide (p.b2 > 1011) && decide (p.b7 ≤ 486), 50⟩, -- Rule 2/5
    ⟨fun p => decide (p.b1 ≤ 1966) && decide (p.b5 > 1707) &&
      decide (p.b7 ≤ 1626) && cgt (ndvi p) 0.0650248 &&
      cle (ndvi p) 0.12763, 50⟩, -- Rule 2/6
    ⟨fun p => decide (p.b5 > 2507) && decide (p.b7 ≤ 1626) &&
      cgt (ndvi p) 0.0650248 && cgt (ndsi p) (-0.254112), 50⟩, -- Rule 2/7
    ⟨fun p => decide (p.b2 ≤ 1011), 50⟩, -- Rule 2/8
    ⟨fun p => decide (p.b3 > 1265) && decide (p.b7 ≤ 1008), 50⟩, -- Rule 2/9
    ⟨fun p => decide (p.b3 ≤ 1265) && cgt (ndvi p) 0.403095, 50⟩, -- Rule 2/10
    ⟨fun p => decide (p.b1 ≤ 1725) && decide (p.b7 ≤ 1286) &&
      cle (ndvi p) 0.139127, 50⟩, -- Rule 2/11
    ⟨fun p => decide (p.b1 ≤ 1725) && decide (p.b3 > 1205) &&
      decide (p.b4 ≤ 2458) && decide (p.b7 ≤ 1286), 50⟩, -- Rule 2/12
    ⟨fun p => decide (p.b1 > 1842) && decide (p.b2 ≤ 4235) &&
      decide (p.b4 > 1742) && decide (p.b7 ≤ 1286) &&
      cle (ndvi p) 0.0979757, 50⟩, -- Rule 2/13
    ⟨fun p => decide (p.b2 ≤ 4235) && decide (p.b3 > 1265) &&
      decide (p.b5 > 1747) && decide (p.b7 ≤ 1286), 50⟩, -- Rule 2/14
    ⟨fun p => decide (p.b4 > 6150) && decide (p.b5 ≤ 3315) &&
      cle (ndsi p) 0.49737, 50⟩, -- Rule 2/15
    ⟨fun p => decide (p.b5 ≤ 3315) && cgt (ndsi p) 0.368125 &&
      cle (ndsi p) 0.49737, 50⟩, -- Rule 2/16
    ⟨fun p => decide (p.b1 ≤ 3284) && decide (p.b3 > 2276) &&
      decide (p.b5 > 1707) && decide (p.b7 ≤ 1626) &&
      cgt (ndvi p) 0.0650248, 50⟩, -- Rule 2/17
    ⟨fun p => decide (p.b4 ≤ 3074) && decide (p.b5 > 3315), 50⟩, -- Rule 2/18
    ⟨fun p => decide (p.b1 ≤ 3418) && decide (p.b5 > 3315) &&
      cle (ndvi p) 0.079329, 50⟩, -- Rule 2/19
    ⟨fun p => decide (p.b3 ≤ 1205) && decide (p.b7 ≤ 1286) &&
      cle (ndsi p) (-0.0934991), 50⟩, -- Rule 2/20
    ⟨fun p => decide (p.b5 > 2885) && decide (p.b7 ≤ 2112) &&
      cgt (ndvi p) 0.0650248 && cgt (ndsi p) (-0.254112), 50⟩, -- Rule 2/21
    ⟨fun p => decide (p.b1 ≤ 1966) && decide (p.b3 > 1220) &&
      decide (p.b4 ≤ 2470) && decide (p.b7 ≤ 1458), 50⟩, -- Rule 2/22
    ⟨fun p => decide (p.b1 ≤ 1966) && decide (p.b4 > 2470) &&
      decide (p.b4 ≤ 3217) && decide (p.b7 > 1286) &&
      decide (p.b7 ≤ 1626), 50⟩, -- Rule 2/23
    ⟨fun p => decide (p.b5 > 2528) && decide (p.b7 ≤ 1805) &&
      cgt (ndvi p) 0.0650248 && cgt (ndsi p) (-0.254112), 50⟩, -- Rule 2/24
    ⟨fun p => decide (p.b1 ≤ 3376) && cle (ndvi p) 0.0650248, 50⟩, -- Rule 2/25
    ⟨fun p => decide (p.b4 ≤ 2856) && cle (ndsi p) (-0.254112), 50⟩, -- Rule 2/26
    ⟨fun p => decide (p.b1 > 1725) && decide (p.b3 ≤ 1265) &&
      decide (p.b7 > 486), 100⟩, -- Rule 2/27
    ⟨fun p => decide (p.b1 ≤ 1725) && decide (p.b2 > 1011) &&
      decide (p.b3 ≤ 1265) && decide (p.b4 > 2458) &&
      decide (p.b7 > 486) && decide (p.b7 ≤ 1286) &&
      cle (ndvi p) 0.403095, 100⟩, -- Rule 2/28
    ⟨fun p => decide (p.b2 > 1011) && decide (p.b5 ≤ 1707) &&
      decide (p.b7 > 1286) && cle (ndsi p) 0.368125, 100⟩, -- Rule 2/29
    ⟨fun p => decide (p.b1 > 1842) && decide (p.b4 ≤ 1742) &&
      decide (p.b5 ≤ 1747) && decide (p.b7 > 1008), 100⟩, -- Rule 2/30
    ⟨fun p => cle (ndsi p) 0.881556, 100⟩ -- Rule 2/31
  ]
  dflt := 100

/-- 4th model run (rules `3/1` .. `3/37`, lines 483-653).  The fall-through
default at lines 652-653 is the cloud_free code 50. -/
def model4 : DecisionList where
  rules := [
    ⟨fun p => decide (p.b1 ≤ 2118) && decide (p.b2 > 2012), 50⟩, -- Rule 3/1
    ⟨fun p => decide (p.b1 ≤ 3234) && decide (p.b2 > 3108) &&
      decide (p.b5 > 3315), 50⟩, -- Rule 3/2
    ⟨fun p => decide (p.b1 ≤ 2467) && decide (p.b3 > 2364), 50⟩, -- Rule 3/3
    ⟨fun p => decide (p.b1 ≤ 2654) && decide (p.b5 > 3315) &&
      cle (ndvi p) 0.1719, 50⟩, -- Rule 3/4
    ⟨fun p => decide (p.b1 ≤ 2467) && decide (p.b2 > 1983) &&
      decide (p.b5 > 1706) && cle (ndvi p) 0.114312, 50⟩, -- Rule 3/5
    ⟨fun p => decide (p.b1 ≤ 2762) && decide (p.b3 > 2437) &&
      cgt (ndsi p) (-0.115228), 50⟩, -- Rule 3/6
    ⟨fun p => decide (p.b3 > 1665) && decide (p.b7 ≤ 1347) &&
      cgt (ndvi p) (-0.0240739) && cle (ndvi p) 0.131339, 50⟩, -- Rule 3/7
    ⟨fun p => decide (p.b1 > 6251) && decide (p.b5 ≤ 3112) &&
      decide (p.b7 ≤ 2077), 50⟩, -- Rule 3/8
    ⟨fun p => decide (p.b1 ≤ 3160) && decide (p.b3 > 2834) &&
      decide (p.b5 ≤ 3112), 50⟩, -- Rule 3/9
    ⟨fun p => decide (p.b4 > 5404) && decide (p.b5 ≤ 3112) &&
      decide (p.b7 ≤ 2077), 50⟩, -- Rule 3/10
    ⟨fun p => decide (p.b1 ≤ 2467) && decide (p.b5 > 1706) &&
      decide (p.b7 > 1347) && cgt (ndvi p) 0.114312 &&
      cgt (ndsi p) (-0.0444104), 50⟩, -- Rule 3/11
    ⟨fun p => decide (p.b1 ≤ 2118) && decide (p.b4 ≤ 3249) &&
      decide (p.b5 > 2406) && decide (p.b7 ≤ 1726), 50⟩, -- Rule 3/12
    ⟨fun p => decide (p.b1 ≤ 2118) && decide (p.b4 ≤ 2223) &&
      decide (p.b5 > 1706), 50⟩, -- Rule 3/13
    ⟨fun p => decide (p.b1 ≤ 1873) && decide (p.b5 > 1138) &&
      decide (p.b7 ≤ 1347) && cle (ndvi p) 0.317016, 50⟩, -- Rule 3/14
    ⟨fun p => decide (p.b1 ≤ 3544) && decide (p.b2 > 3043) &&
      decide (p.b5 ≤ 3112), 50⟩, -- Rule 3/15
    ⟨fun p => decide (p.b1 ≤ 2654) && decide (p.b5 > 3315), 50⟩, -- Rule 3/16
    ⟨fun p => decide (p.b1 ≤ 1684) && decide (p.b2 > 1342) &&
      decide (p.b5 ≤ 2406) && decide (p.b7 > 1347), 50⟩, -- Rule 3/17
    ⟨fun p => decide (p.b5 ≤ 3315), 50⟩, -- Rule 3/18
    ⟨fun p => decide (p.b1 > 3544) && decide (p.b7 > 2077), 100⟩, -- Rule 3/19
    ⟨fun p => decide (p.b1 > 2467) && decide (p.b5 ≤ 3315) &&
      cle (ndsi p) (-0.115228), 100⟩, -- Rule 3/20
    ⟨fun p => decide (p.b1 > 3160) && decide (p.b2 ≤ 3043) &&
      decide (p.b7 > 1347), 100⟩, -- Rule 3/21
    ⟨fun p => decide (p.b1 > 2654) && decide (p.b5 > 3315), 100⟩, -- Rule 3/22
    ⟨fun p => decide (p.b1 > 3544) && decide (p.b7 > 1347) &&
      cgt (ndvi p) (-0.626148), 100⟩, -- Rule 3/23
    ⟨fun p => decide (p.b5 > 1157) && cgt (ndvi p) (-0.564211) &&
      cle (ndvi p) (-0.0240739) && cle (ndsi p) 0.881468, 100⟩, -- Rule 3/24
    ⟨fun p => decide (p.b1 > 2762) && decide (p.b3 ≤ 2834) &&
      decide (p.b7 > 1347), 100⟩, -- Rule 3/25
    ⟨fun p => decide (p.b1 > 1526) && decide (p.b2 ≤ 1342) &&
      decide (p.b5 ≤ 3315) && decide (p.b7 > 1347) &&
      cgt (ndvi p) 0.114312, 100⟩, -- Rule 3/26
    ⟨fun p => decide (p.b1 > 2467) && decide (p.b3 ≤ 2437) &&
      decide (p.b7 > 1347), 100⟩, -- Rule 3/27
    ⟨fun p => decide (p.b5 > 1136) && decide (p.b5 ≤ 1138), 100⟩, -- Rule 3/28
    ⟨fun p => decide (p.b1 > 2123) && decide (p.b2 ≤ 1983) &&
      decide (p.b7 > 1347), 100⟩, -- Rule 3/29
    ⟨fun p => decide (p.b1 > 2118) && decide (p.b7 > 1347) &&
      cgt (ndvi p) 0.114312 && cle (ndsi p) (-0.0444104), 100⟩, -- Rule 3/30
    ⟨fun p => decide (p.b1 > 1526) && decide (p.b2 ≤ 2012) &&
      decide (p.b4 > 3249) && decide (p.b5 ≤ 3315) &&
      decide (p.b7 > 1347) && cle (ndvi p) 0.44504, 100⟩, -- Rule 3/31
    ⟨fun p => decide (p.b1 > 1526) && decide (p.b1 ≤ 2467) &&
      decide (p.b3 ≤ 2364) && decide (p.b5 ≤ 1706) &&
      decide (p.b7 > 1347), 100⟩, -- Rule 3/32
    ⟨fun p => decide (p.b1 > 1873) && decide (p.b3 ≤ 1665) &&
      decide (p.b5 > 1157) && cgt (ndvi p) (-0.0240739) &&
      cle (ndvi p) 0.317016 && cgt (ndsi p) (-0.184974), 100⟩, -- Rule 3/33
    ⟨fun p => decide (p.b1 > 1684) && decide (p.b4 > 2223) &&
      decide (p.b5 ≤ 2406) && decide (p.b7 > 1347) &&
      cgt (ndvi p) 0.114312 && cle (ndvi p) 0.44504 &&
      cle (ndsi p) (-0.0800831), 100⟩, -- Rule 3/34
    ⟨fun p => decide (p.b1 > 1526) && decide (p.b3 ≤ 2364) &&
      decide (p.b5 ≤ 2626) && decide (p.b7 > 1726) &&
      cgt (ndvi p) 0.114312, 100⟩, -- Rule 3/35
    ⟨fun p => decide (p.b7 > 1086) && cgt (ndvi p) 0.131339 &&
      cgt (ndsi p) 0.0375777 && cle (ndsi p) 0.416984, 100⟩, -- Rule 3/36
    ⟨fun p => decide (p.b1 > 1526) && decide (p.b3 ≤ 2364) &&
      decide (p.b5 ≤ 2406) && decide (p.b7 > 1347) &&
      cgt (ndvi p) 0.114312 && cle (ndvi p) 0.44504, 100⟩ -- Rule 3/37
  ]
  dflt := 50

/-- 5th model run (rules `4/1` .. `4/45`, lines 657-862).  The fall-through
default at lines 861-862 assigns the code 100 — i.e. cloud, although the
comment there reads "Default class: cloud_free". -/
def model5 : DecisionList where
  rules := [
    ⟨fun p => decide (p.b7 ≤ 1461) && cle (ndsi p) (-0.224928), 50⟩, -- Rule 4/1
    ⟨fun p => decide (p.b1 ≤ 2601) && decide (p.b3 > 2260) &&
      decide (p.b7 ≤ 1623), 50⟩, -- Rule 4/2
    ⟨fun p => decide (p.b1 ≤ 1511) && decide (p.b2 > 1317) &&
      decide (p.b5 > 1516), 50⟩, -- Rule 4/3
    ⟨fun p => cgt (ndsi p) 0.85271, 50⟩, -- Rule 4/4
    ⟨fun p => decide (p.b1 ≤ 2601) && cle (ndvi p) 0.107894 &&
      cle (ndsi p) (-0.177533), 50⟩, -- Rule 4/5
    ⟨fun p => decide (p.b1 ≤ 1645) && cle (ndvi p) 0.107894, 50⟩, -- Rule 4/6
    ⟨fun p => decide (p.b2 ≤ 1027) && decide (p.b5 > 796), 50⟩, -- Rule 4/7
    ⟨fun p => decide (p.b5 ≤ 796), 50⟩, -- Rule 4/8
    ⟨fun p => decide (p.b1 ≤ 2601) && decide (p.b3 > 2569), 50⟩, -- Rule 4/9
    ⟨fun p => decide (p.b1 ≤ 1802) && decide (p.b2 > 1292) &&
      cle (ndvi p) 0.107894, 50⟩, -- Rule 4/10
    ⟨fun p => decide (p.b2 > 1387) && decide (p.b3 ≤ 1461) &&
      cle (ndvi p) 0.412224 && cle (ndsi p) (-0.22841), 50⟩, -- Rule 4/11
    ⟨fun p => decide (p.b1 ≤ 2005) && decide (p.b3 > 1949), 50⟩, -- Rule 4/12
    ⟨fun p => cgt (ndvi p) 0.412224, 50⟩, -- Rule 4/13
    ⟨fun p => decide (p.b7 ≤ 579), 50⟩, -- Rule 4/14
    ⟨fun p => decide (p.b1 ≤ 3037) && decide (p.b2 > 2885) &&
      decide (p.b5 ≤ 4374), 50⟩, -- Rule 4/15
    ⟨fun p => decide (p.b2 ≤ 1317) && decide (p.b5 > 1516) &&
      cgt (ndvi p) 0.107894, 50⟩, -- Rule 4/16
    ⟨fun p => decide (p.b1 > 2601) && decide (p.b1 ≤ 3037) &&
      cgt (ndsi p) 0.143982, 50⟩, -- Rule 4/17
    ⟨fun p => decide (p.b1 ≤ 3037) && decide (p.b3 > 2909), 50⟩, -- Rule 4/18
    ⟨fun p => decide (p.b4 > 7015) && decide (p.b5 ≤ 4374), 50⟩, -- Rule 4/19
    ⟨fun p => decide (p.b4 ≤ 4251) && decide (p.b5 > 4374), 50⟩, -- Rule 4/20
    ⟨fun p => decide (p.b1 ≤ 2247) && decide (p.b2 > 1763) &&
      decide (p.b5 > 1493) && cle (ndvi p) 0.107894, 50⟩, -- Rule 4/21
    ⟨fun p => decide (p.b3 > 1223) && decide (p.b7 ≤ 1084) &&
      cgt (ndsi p) (-0.0853392), 50⟩, -- Rule 4/22
    ⟨fun p => decide (p.b2 ≤ 3959) && cgt (ndsi p) 0.267478, 50⟩, -- Rule 4/23
    ⟨fun p => decide (p.b5 ≤ 1516) && cle (ndsi p) (-0.0853392), 50⟩, -- Rule 4/24
    ⟨fun p => decide (p.b1 ≤ 2005) && decide (p.b5 > 1516) &&
      cle (ndvi p) 0.175138, 50⟩, -- Rule 4/25
    ⟨fun p => decide (p.b1 ≤ 2005) && decide (p.b4 ≤ 2856) &&
      cle (ndsi p) (-0.22841), 50⟩, -- Rule 4/26
    ⟨fun p => decide (p.b2 > 3959) && decide (p.b5 ≤ 4374) &&
      cgt (ndvi p) 0.0799109, 50⟩, -- Rule 4/27
    ⟨fun p => decide (p.b1 ≤ 2601) && decide (p.b2 > 1906) &&
      cle (ndvi p) 0.107894 && cgt (ndsi p) (-0.115822), 50⟩, -- Rule 4/28
    ⟨fun p => decide (p.b1 ≤ 2394) && decide (p.b5 > 2533) &&
      cle (ndvi p) 0.201976, 50⟩, -- Rule 4/29
    ⟨fun p => decide (p.b3 > 1267) && decide (p.b7 ≤ 1461) &&
      cle (ndvi p) 0.412224, 50⟩, -- Rule 4/30
    ⟨fun p => decide (p.b1 ≤ 2392) && decide (p.b2 > 1698) &&
      decide (p.b5 > 1516) && decide (p.b7 ≤ 1623) &&
      cle (ndvi p) 0.412224, 50⟩, -- Rule 4/31
    ⟨fun p => decide (p.b1 > 2005) && decide (p.b2 ≤ 1698) &&
      decide (p.b5 > 1516), 100⟩, -- Rule 4/32
    ⟨fun p => decide (p.b1 > 2247) && decide (p.b2 ≤ 1906) &&
      decide (p.b7 > 1082), 100⟩, -- Rule 4/33
    ⟨fun p => decide (p.b1 > 1645) && decide (p.b2 ≤ 1292) &&
      decide (p.b5 > 796), 100⟩, -- Rule 4/34
    ⟨fun p => decide (p.b1 > 2040) && decide (p.b2 ≤ 1763) &&
      decide (p.b7 > 1082) && cle (ndvi p) 0.107894, 100⟩, -- Rule 4/35
    ⟨fun p => decide (p.b5 ≤ 1516) && decide (p.b7 > 1084) &&
      cgt (ndvi p) 0.107894 && cgt (ndsi p) (-0.0853392) &&
      cle (ndsi p) 0.267478, 100⟩, -- Rule 4/36
    ⟨fun p => decide (p.b1 > 2392) && decide (p.b3 ≤ 2260) &&
      decide (p.b5 > 1516) && cgt (ndvi p) 0.107894, 100⟩, -- Rule 4/37
    ⟨fun p => decide (p.b2 > 3959) && decide (p.b5 > 796) &&
      cle (ndvi p) 0.0799109 && cle (ndsi p) 0.85271, 100⟩, -- Rule 4/38
    ⟨fun p => decide (p.b1 > 2247) && decide (p.b3 ≤ 2569) &&
      cgt (ndsi p) (-0.177533) && cle (ndsi p) (-0.115822), 100⟩, -- Rule 4/39
    ⟨fun p => decide (p.b1 > 1511) && decide (p.b2 > 1317) &&
      decide (p.b2 ≤ 1387) && decide (p.b7 > 1461) &&
      cgt (ndvi p) 0.175138, 100⟩, -- Rule 4/40
    ⟨fun p => decide (p.b1 > 2601) && decide (p.b2 ≤ 2885) &&
      decide (p.b3 ≤ 2909) && cle (ndsi p) 0.143982, 100⟩, -- Rule 4/41
    ⟨fun p => decide (p.b1 > 1802) && decide (p.b2 ≤ 1584) &&
      decide (p.b5 > 796) && cgt (ndsi p) (-0.177533) &&
      cle (ndsi p) 0.267478, 100⟩, -- Rule 4/42
    ⟨fun p => decide (p.b1 > 2040) && decide (p.b1 ≤ 2601) &&
      decide (p.b3 ≤ 2569) && decide (p.b5 ≤ 1493) &&
      decide (p.b7 > 1082) && cle (ndsi p) 0.267478, 100⟩, -- Rule 4/43
    ⟨fun p => decide (p.b1 > 1511) && decide (p.b7 > 1461) &&
      cgt (ndvi p) 0.175138 && cgt (ndsi p) (-0.22841), 100⟩, -- Rule 4/44
    ⟨fun p => decide (p.b5 > 796) && cle (ndsi p) 0.85271, 100⟩ -- Rule 4/45
  ]
  dflt := 100

/-- The conservative vote of `rule_based_model` (lines 864-874): the running
maximum of the five member codes, written exactly as the C chain of
`if (mX_cloud_code > limited_cloud_code) limited_cloud_code = mX_cloud_code;`. -/
def limited_cloud_code (p : Pixel) : Int :=
  let m1 := evalDL model1 p
  let m2 := evalDL model2 p
  let m3 := evalDL model3 p
  let m4 := evalDL model4 p
  let m5 := evalDL model5 p
  let l1 := m1
  let l2 := if m2 > l1 then m2 else l1
  let l3 := if m3 > l2 then m3 else l2
  let l4 := if m4 > l3 then m4 else l3
  if m5 > l4 then m5 else l4

/-- The revised cloud-mask value `rule_based_model` writes for one sample:
0 from the initial `memset` when the cfmask short-circuit skips the sample
(line 60-61), otherwise 0 if the vote is 50 and OUT_CLOUD if not
(lines 876-884). -/
def rule_based_model_pix (cfmask : Nat) (p : Pixel) : Nat :=
  if cfmask ≠ CFMASK_CLOUD then OUT_NOCLOUD
  else if limited_cloud_code p = 50 then 0
  else OUT_CLOUD

/-- A concrete pixel (all bands 0, fill -9999, saturation 20000) used by
the classifier witnesses. -/
def pixel0 : Pixel := ⟨0, 0, 0, 0, 0, 0, -9999, 20000⟩

/-- If every rule code of a list is 50 or 100 and the default is 50 or 100,
first-match evaluation yields 50 or 100. -/
theorem run_rules_code_mem (p : Pixel) :
    ∀ (rs : List CRule) (d : Int),
      (∀ r ∈ rs, r.code = 50 ∨ r.code = 100) → (d = 50 ∨ d = 100) →
      run_rules p rs d = 50 ∨ run_rules p rs d = 100 := by
  intro rs
  induction rs with
  | nil =>
    intro d _ hd
    exact hd
  | cons r rest ih =>
    intro d hr hd
    unfold run_rules
    by_cases hc : r.cond p
    · rw [if_pos hc]
      exact hr r (List.mem_cons_self r rest)
    · rw [if_neg hc]
      exact ih d (fun x hx => hr x (List.mem_cons_of_mem r hx)) hd

/-- Turn a computed `all`-check over the rule codes into the membership
hypothesis of `run_rules_code_mem`. -/
theorem codes_ok_of_all (rs : List CRule)
    (h : rs.all (fun r => r.code == 50 || r.code == 100) = true) :
    ∀ r ∈ rs, r.code = 50 ∨ r.code = 100 := by
  intro r hr
  have hx := List.all_eq_true.mp h r hr
  simpa using hx

/-- Every ensemble member evaluates to 50 or 100 on every pixel. -/
theorem evalDL_models_mem (p : Pixel) :
    (evalDL model1 p = 50 ∨ evalDL model1 p = 100) ∧
    (evalDL model2 p = 50 ∨ evalDL model2 p = 100) ∧
    (evalDL model3 p = 50 ∨ evalDL model3 p = 100) ∧
    (evalDL model4 p = 50 ∨ evalDL model4 p = 100) ∧
    (evalDL model5 p = 50 ∨ evalDL model5 p = 100) :=
  ⟨run_rules_code_mem p model1.rules model1.dflt
      (codes_ok_of_all _ (by rfl)) (Or.inr rfl),
   run_rules_code_mem p model2.rules model2.dflt
      (codes_ok_of_all _ (by rfl)) (Or.inl rfl),
   run_rules_code_mem p model3.rules model3.dflt
      (codes_ok_of_all _ (by rfl)) (Or.inr rfl),
   run_rules_code_mem p model4.rules model4.dflt
      (codes_ok_of_all _ (by rfl)) (Or.inl rfl),
   run_rules_code_mem p model5.rules model5.dflt
      (codes_ok_of_all _ (by rfl)) (Or.inr rfl)⟩

/-- C5: `CFMASK_CLOUD` is 4 and `CFMASK_FILL` is 255, and for every sample
whose cfmask value is anything other than `CFMASK_CLOUD` the classifier
skips the sample (`continue`) and its output keeps the `memset` value 0
(clear) without the ensemble influencing it. -/
theorem c5_short_circuit :
    CFMASK_CLOUD = 4 ∧ CFMASK_FILL = 255 ∧
    ∀ (cfmask : Nat) (p : Pixel), cfmask ≠ CFMASK_CLOUD →
      rule_based_model_pix cfmask p = OUT_NOCLOUD := by
  refine ⟨rfl, rfl, ?_⟩
  intro cfmask p h
  unfold rule_based_model_pix
  rw [if_pos h]

/-- Witness for `c5_short_circuit` at cfmask = CFMASK_FILL (255). -/
theorem c5_short_circuit_witness :
    CFMASK_FILL ≠ CFMASK_CLOUD ∧
      rule_based_model_pix CFMASK_FILL pixel0 = OUT_NOCLOUD :=
  ⟨by decide, c5_short_circuit.2.2 CFMASK_FILL pixel0 (by decide)⟩

/-- C6: for every evaluated sample (cfmask = CFMASK_CLOUD), the vote
`limited_cloud_code` equals the maximum of the five member codes
(50 = cloud_free < 100 = cloud), and the output is OUT_CLOUD iff at least
one member yields the cloud code 100. -/
theorem c6_max_vote (p : Pixel) (cfmask : Nat) (h : cfmask = CFMASK_CLOUD) :
    limited_cloud_code p =
      max (max (max (max (evalDL model1 p) (evalDL model2 p)) (evalDL model3 p))
        (evalDL model4 p)) (evalDL model5 p) ∧
    (rule_based_model_pix cfmask p = OUT_CLOUD ↔
      (evalDL model1 p = 100 ∨ evalDL model2 p = 100 ∨ evalDL model3 p = 100 ∨
       evalDL model4 p = 100 ∨ evalDL model5 p = 100)) := by
  subst h
  have hmax : ∀ a b : Int, (if b > a then b else a) = max a b := by
    intro a b
    by_cases hab : b > a
    · rw [if_pos hab, max_eq_right (le_of_lt hab)]
    · rw [if_neg hab, max_eq_left (le_of_not_lt hab)]
  obtain ⟨hm1, hm2, hm3, hm4, hm5⟩ := evalDL_models_mem p
  constructor
  · simp only [limited_cloud_code]
    rw [hmax, hmax, hmax, hmax]
  · rcases hm1 with hm1 | hm1 <;> rcases hm2 with hm2 | hm2 <;>
      rcases hm3 with hm3 | hm3 <;> rcases hm4 with hm4 | hm4 <;>
      rcases hm5 with hm5 | hm5 <;>
      · simp only [rule_based_model_pix, limited_cloud_code,
          hm1, hm2, hm3, hm4, hm5]
        decide

/-- Witness for `c6_max_vote` at `pixel0` with cfmask = CFMASK_CLOUD. -/
theorem c6_max_vote_witness :
    CFMASK_CLOUD = CFMASK_CLOUD ∧
      (limited_cloud_code pixel0 =
        max (max (max (max (evalDL model1 pixel0) (evalDL model2 pixel0))
          (evalDL model3 pixel0)) (evalDL model4 pixel0)) (evalDL model5 pixel0) ∧
      (rule_based_model_pix CFMASK_CLOUD pixel0 = OUT_CLOUD ↔
        (evalDL model1 pixel0 = 100 ∨ evalDL model2 pixel0 = 100 ∨
         evalDL model3 pixel0 = 100 ∨ evalDL model4 pixel0 = 100 ∨
         evalDL model5 pixel0 = 100))) :=
  ⟨rfl, c6_max_vote pixel0 CFMASK_CLOUD rfl⟩

/-- A member falls through to its default on a pixel exactly when none of
its rule conditions holds there. -/
def dl_defaulted (dl : DecisionList) (p : Pixel) : Bool :=
  dl.rules.all (fun r => !(r.cond p))

/-- The feature vector satisfies no rule in any of the five decision
lists. -/
def all_members_defaulted (p : Pixel) : Bool :=
  dl_defaulted model1 p && dl_defaulted model2 p && dl_defaulted model3 p &&
    dl_defaulted model4 p && dl_defaulted model5 p

/-- When no rule condition holds, first-match evaluation returns the
default. -/
theorem run_rules_defaulted (p : Pixel) :
    ∀ (rs : List CRule) (d : Int),
      rs.all (fun r => !(r.cond p)) = true → run_rules p rs d = d := by
  intro rs
  induction rs with
  | nil =>
    intro d _
    rfl
  | cons r rest ih =>
    intro d hall
    simp only [List.all_cons, Bool.and_eq_true, Bool.not_eq_true'] at hall
    unfold run_rules
    rw [if_neg (by simp [hall.1]), ih d]
    simp only [List.all_eq_true]
    intro x hx
    exact List.all_eq_true.mp hall.2 x hx

/-- C9: members 1, 3 and 5 fall through to the default class code 100
(cloud) — for member 5 despite the adjacent comment reading "cloud_free" —
and for every cfmask-cloud pixel on which all five decision lists fall
through to their defaults, the output is OUT_CLOUD, because the defaults
(100, 50, 100, 50, 100) make the max-vote 100.  (Stated disjunctively:
member 3's rules 2/2 and 2/31 split on `ndsi <= 0.881556`, so its rule
list in fact never falls through on any pixel, and the left disjunct is
the one that ever occurs.) -/
theorem c9_default_is_cloud :
    model1.dflt = 100 ∧ model3.dflt = 100 ∧ model5.dflt = 100 ∧
    ∀ p : Pixel, all_members_defaulted p = false ∨
      rule_based_model_pix CFMASK_CLOUD p = OUT_CLOUD := by
  refine ⟨rfl, rfl, rfl, ?_⟩
  intro p
  cases hd : all_members_defaulted p with
  | false =>
    left
    rfl
  | true =>
    right
    simp only [all_members_defaulted, Bool.and_eq_true] at hd
    obtain ⟨⟨⟨⟨h1, h2⟩, h3⟩, h4⟩, h5⟩ := hd
    have e1 : evalDL model1 p = 100 := run_rules_defaulted p model1.rules model1.dflt h1
    have e2 : evalDL model2 p = 50 := run_rules_defaulted p model2.rules model2.dflt h2
    have e3 : evalDL model3 p = 100 := run_rules_defaulted p model3.rules model3.dflt h3
    have e4 : evalDL model4 p = 50 := run_rules_defaulted p model4.rules model4.dflt h4
    have e5 : evalDL model5 p = 100 := run_rules_defaulted p model5.rules model5.dflt h5
    simp only [rule_based_model_pix, limited_cloud_code, e1, e2, e3, e4, e5]
    decide
